import Mathlib

/-!
# libcalico-go: host endpoint resources and the cluster-information update processor

Shallow embedding of

* `lib/apis/v2/hostendpoint.go`: the `HostEndpoint` / `HostEndpointList` resource
  types and their constructors;
* `lib/backend/syncersv1/updateprocessors/clusterinfoprocessor.go`: the
  construction of the cluster-information update processor.

Go structs are Lean structures whose field defaults are the Go zero values, so a
Go composite literal that names only some fields is a Lean structure instance
naming the same fields.  Go strings are `String`, slices and maps are lists,
pointers to freshly built structs are the structs themselves.
-/

namespace Calico

/-! ## Kubernetes metadata types (external package `metav1`) -/

/-- TypeMeta of `k8s.io/apimachinery/pkg/apis/meta/v1`: the kind and the API
version of a resource. -/
structure TypeMeta where
  Kind : String := ""
  APIVersion : String := ""
deriving DecidableEq, Repr

/-- OwnerReference of `metav1`, an element of `ObjectMeta.OwnerReferences`. -/
structure OwnerReference where
  APIVersion : String := ""
  Kind : String := ""
  Name : String := ""
  UID : String := ""
deriving DecidableEq, Repr

/-- ObjectMeta of `metav1`: the standard object metadata.  Timestamps are kept as
optional numbers, `none` being the unset (zero) time. -/
structure ObjectMeta where
  Name : String := ""
  GenerateName : String := ""
  Namespace : String := ""
  SelfLink : String := ""
  UID : String := ""
  ResourceVersion : String := ""
  Generation : Int := 0
  CreationTimestamp : Option Int := none
  DeletionTimestamp : Option Int := none
  DeletionGracePeriodSeconds : Option Int := none
  Labels : List (String × String) := []
  Annotations : List (String × String) := []
  OwnerReferences : List OwnerReference := []
  Finalizers : List String := []
  ClusterName : String := ""
deriving DecidableEq, Repr

/-- ListMeta of `metav1`: the metadata of a list resource. -/
structure ListMeta where
  SelfLink : String := ""
  ResourceVersion : String := ""
  Continue : String := ""
deriving DecidableEq, Repr

/-! ## `lib/apis/v2/hostendpoint.go` -/

/-- The constant `KindHostEndpoint`. -/
def KindHostEndpoint : String := "HostEndpoint"

/-- The constant `KindHostEndpointList`. -/
def KindHostEndpointList : String := "HostEndpointList"

/-- Protocol of package `numorstring`: a protocol given by number or by name. -/
structure Protocol where
  Type_ : Int := 0
  NumVal : Nat := 0
  StrVal : String := ""
deriving DecidableEq, Repr

/-- EndpointPort: a named port of an endpoint (`Port` is a `uint16`). -/
structure EndpointPort where
  Name : String := ""
  Protocol : Protocol := {}
  Port : Nat := 0
deriving DecidableEq, Repr

/-- HostEndpointSpec: the specification of a HostEndpoint resource. -/
structure HostEndpointSpec where
  Node : String := ""
  InterfaceName : String := ""
  ExpectedIPs : List String := []
  Profiles : List String := []
  Ports : List EndpointPort := []
deriving DecidableEq, Repr

/-- HostEndpoint: a bare-metal interface attached to the host running the agent. -/
structure HostEndpoint where
  TypeMeta : TypeMeta := {}
  ObjectMeta : ObjectMeta := {}
  Spec : HostEndpointSpec := {}
deriving DecidableEq, Repr

/-- HostEndpointList: a list of HostEndpoint resources. -/
structure HostEndpointList where
  TypeMeta : TypeMeta := {}
  ListMeta : ListMeta := {}
  Items : List HostEndpoint := []
deriving DecidableEq, Repr

/-- NewHostEndpoint creates a new (zeroed) HostEndpoint with the type metadata
initialised to the current version.  The constant `GroupVersionCurrent` is declared
elsewhere in package `v2` and is taken as a parameter. -/
def NewHostEndpoint (GroupVersionCurrent : String) : HostEndpoint :=
  { TypeMeta := { Kind := KindHostEndpoint, APIVersion := GroupVersionCurrent } }

/-- NewHostEndpointList creates a new (zeroed) HostEndpointList with the type
metadata initialised to the current version. -/
def NewHostEndpointList (GroupVersionCurrent : String) : HostEndpointList :=
  { TypeMeta := { Kind := KindHostEndpointList, APIVersion := GroupVersionCurrent } }

/-! ## Keys of package `model` used by the cluster-information processor -/

/-- GlobalConfigKey of package `model`: the key of a cluster-wide setting. -/
structure GlobalConfigKey where
  Name : String := ""
deriving DecidableEq, Repr

/-- HostConfigKey of package `model`: the key of a setting scoped to one node. -/
structure HostConfigKey where
  Hostname : String := ""
  Name : String := ""
deriving DecidableEq, Repr

/-- Key of package `model`: an interface value, here holding one of the two
concrete key types the cluster-information processor builds.  Two interface
values are equal when their dynamic types and their fields are equal. -/
inductive Key where
  | Global (k : GlobalConfigKey)
  | PerNode (k : HostConfigKey)
deriving DecidableEq, Repr

/-! ## The configuration update processor (package `updateprocessors`) -/

/-- Modelled from the spec: the annotation policy of section 3, a two-valued
enumeration fixed per processor.  Its Go constants `AllowAnnotations` and
`DisallowAnnotations` are declared with `NewConfigUpdateProcessor`, in another
file of package `updateprocessors`. -/
inductive AnnotationPolicy where
  | AllowAnnotations
  | DisallowAnnotations
deriving DecidableEq, Repr

export AnnotationPolicy (AllowAnnotations DisallowAnnotations)

/-- Modelled from the spec: the raw entry of section 3, a single key/value record
of the store, `{ Key, Value, Revision, Annotations }`. -/
structure RawEntry where
  Key : Key
  Value : String := ""
  Revision : String := ""
  Annotations : List (String × String) := []
deriving DecidableEq, Repr

/-- Modelled from the spec: the kind of a field slot of a specification type,
"scalar-typed (string, bounded integer, boolean)"; an integer slot carries the
bounds of its type. -/
inductive FieldKind where
  | string
  | integer (lo hi : Int)
  | boolean
deriving DecidableEq, Repr

/-- Modelled from the spec: the value held by a field slot. -/
inductive FieldValue where
  | str (s : String)
  | int (i : Int)
  | bool (b : Bool)
deriving DecidableEq, Repr

/-- Modelled from the spec: the specification type descriptor of section 3, from
setting name to field slot, in the order of the fields of the target type. -/
abbrev SpecType := List (String × FieldKind)

/-- Modelled from the spec: a specification value, one value per field slot. -/
abbrev Specification := List (String × FieldValue)

/-- Modelled from the spec: the zero value of a field slot ("target default"). -/
def zeroValue : FieldKind → FieldValue
  | .string => .str ""
  | .integer _ _ => .int 0
  | .boolean => .bool false

/-- Modelled from the spec: the value of a run of decimal digits, `none` when a
character is not a digit. -/
def digitsValue (acc : Nat) : List Char → Option Nat
  | [] => some acc
  | c :: cs =>
    if 48 ≤ c.toNat ∧ c.toNat ≤ 57 then digitsValue (acc * 10 + (c.toNat - 48)) cs
    else none

/-- Modelled from the spec: reading a decimal integer, with an optional sign and
at least one digit. -/
def parseInteger (s : String) : Option Int :=
  match s.data with
  | [] => none
  | c :: cs =>
    if c = '-' then
      (if cs = [] then none else (digitsValue 0 cs).map (fun n => - (n : Int)))
    else if c = '+' then
      (if cs = [] then none else (digitsValue 0 cs).map (fun n => (n : Int)))
    else (digitsValue 0 (c :: cs)).map (fun n => (n : Int))

/-- Modelled from the spec: the string to scalar conversion of the field binder
(section 4.2); `none` is a conversion error, such as "a non-numeric value supplied
for an integer field". -/
def convertValue : FieldKind → String → Option FieldValue
  | .string, v => some (.str v)
  | .integer lo hi, v =>
    match parseInteger v with
    | some i => if lo ≤ i ∧ i ≤ hi then some (.int i) else none
    | none => none
  | .boolean, v =>
    if v = "true" then some (.bool true)
    else if v = "false" then some (.bool false)
    else none

/-- Modelled from the spec: the value a field slot receives from a raw value: the
converted value, or on a conversion error "the offending field is left at its zero
value". -/
def bindValue (kind : FieldKind) (v : String) : FieldValue :=
  match convertValue kind v with
  | some x => x
  | none => zeroValue kind

/-- Modelled from the spec: the state of a configuration update processor (section
4.4): the bound specification type, the annotation policy and the two
key-constructor functions supplied at construction. -/
structure ConfigUpdateProcessor where
  specType : SpecType
  policy : AnnotationPolicy
  nodeConfigKeyFn : String → String → Key
  globalConfigKeyFn : String → Key

/-- Modelled from the spec: the constructor of the generic processor, which keeps
its arguments as the processor state.  Its last argument, for which the
cluster-information processor passes `nil`, is of a type declared with it; only
its absence is represented. -/
def NewConfigUpdateProcessor (specType : SpecType) (policy : AnnotationPolicy)
    (nodeConfigKeyFn : String → String → Key) (globalConfigKeyFn : String → Key)
    (_overrides : Option Unit) : ConfigUpdateProcessor :=
  { specType := specType, policy := policy,
    nodeConfigKeyFn := nodeConfigKeyFn, globalConfigKeyFn := globalConfigKeyFn }

/-- NewClusterInfoUpdateProcessor of `clusterinfoprocessor.go`.  The descriptor of
`apiv2.ClusterInformationSpec`, a type declared in another file of package `v2`,
is taken as a parameter. -/
def NewClusterInfoUpdateProcessor (ClusterInformationSpec : SpecType) :
    ConfigUpdateProcessor :=
  NewConfigUpdateProcessor
    ClusterInformationSpec
    DisallowAnnotations
    (fun node name => Key.PerNode { Hostname := node, Name := name })
    (fun name => Key.Global { Name := name })
    none

/-- Modelled from the spec: whether a key is of the Global variant, the test of
the partition of step 1 of `ProcessUpdates`. -/
def Key.isGlobal : Key → Bool
  | .Global _ => true
  | .PerNode _ => false

/-- Modelled from the spec: step 1 of `ProcessUpdates`, "partition incoming entries
into two groups by key variant (Global, PerNode)". -/
def partitionEntries (entries : List RawEntry) : List RawEntry × List RawEntry :=
  (entries.filter (fun e => e.Key.isGlobal), entries.filter (fun e => !e.Key.isGlobal))

/-- Modelled from the spec: step 2 of `ProcessUpdates` for one setting name: "the
PerNode entry if one exists for that node, else the Global entry if one exists,
else treat the setting as absent"; an empty scope node "means global view only". -/
def selectEntry (p : ConfigUpdateProcessor) (entries : List RawEntry)
    (scopeNode name : String) : Option RawEntry :=
  let groups := partitionEntries entries
  let perNode :=
    if scopeNode = "" then none
    else groups.2.find? (fun e => decide (e.Key = p.nodeConfigKeyFn scopeNode name))
  match perNode with
  | some e => some e
  | none => groups.1.find? (fun e => decide (e.Key = p.globalConfigKeyFn name))

/-- Modelled from the spec: a conversion diagnostic, the per-field report of a
value that failed conversion. -/
structure ConversionDiagnostic where
  Name : String
  Value : String
deriving DecidableEq, Repr

/-- Modelled from the spec: step 3 of `ProcessUpdates`, the specification value
populated through the field binder; a setting that is absent leaves the target
default. -/
def populate (p : ConfigUpdateProcessor) (entries : List RawEntry)
    (scopeNode : String) : Specification :=
  p.specType.map (fun f =>
    (f.1, match selectEntry p entries scopeNode f.1 with
          | some e => bindValue f.2 e.Value
          | none => zeroValue f.2))

/-- Modelled from the spec: the conversion errors "reported per-field" while
populating the specification. -/
def conversionDiagnostics (p : ConfigUpdateProcessor) (entries : List RawEntry)
    (scopeNode : String) : List ConversionDiagnostic :=
  p.specType.filterMap (fun f =>
    match selectEntry p entries scopeNode f.1 with
    | some e =>
      (match convertValue f.2 e.Value with
       | some _ => none
       | none => some { Name := f.1, Value := e.Value })
    | none => none)

/-- Modelled from the spec: the precedence-resolved raw entries, one per setting of
the specification type that is present in the batch. -/
def selectedEntries (p : ConfigUpdateProcessor) (entries : List RawEntry)
    (scopeNode : String) : List RawEntry :=
  p.specType.filterMap (fun f => selectEntry p entries scopeNode f.1)

/-- Modelled from the spec: the annotation policy of section 4.3: "Disallow always
returns an empty mapping", Allow returns a copy of the input. -/
def applyPolicy : AnnotationPolicy → List (String × String) → List (String × String)
  | .DisallowAnnotations, _ => []
  | .AllowAnnotations, raw => raw

/-- Modelled from the spec: a resource event of step 5: an update carrying the
populated specification and the annotations, or a delete. -/
inductive ResourceEvent where
  | update (spec : Specification) (annotations : List (String × String))
  | delete
deriving DecidableEq, Repr

/-- Modelled from the spec: what `ProcessUpdates` hands back: the resource events
and the conversion diagnostics surfaced to the caller. -/
structure ProcessResult where
  events : List ResourceEvent
  diagnostics : List ConversionDiagnostic
deriving DecidableEq, Repr

/-- Modelled from the spec: the operation `ProcessUpdates(entries, scopeNode)` of
section 4.4, steps 1 to 5.  The annotations are those of the selected entries, in
the order of the fields. -/
def ProcessUpdates (p : ConfigUpdateProcessor) (entries : List RawEntry)
    (scopeNode : String) : ProcessResult :=
  match selectedEntries p entries scopeNode with
  | [] => { events := [ResourceEvent.delete], diagnostics := [] }
  | sel =>
    { events := [ResourceEvent.update (populate p entries scopeNode)
        (applyPolicy p.policy (sel.flatMap (fun e => e.Annotations)))],
      diagnostics := conversionDiagnostics p entries scopeNode }

/-- Modelled from the spec: the identity of raw entries, "Identity = Key": two
entries of a batch with the same key are the same entry. -/
def KeyIdentity (entries : List RawEntry) : Prop :=
  ∀ a ∈ entries, ∀ b ∈ entries, a.Key = b.Key → a = b

/-- The value of field `name` in the specification carried by the update event of a
result; `none` when the result carries no update event or the specification has no
such field. -/
def ProcessResult.field (r : ProcessResult) (name : String) : Option FieldValue :=
  match r.events with
  | ResourceEvent.update spec _ :: _ => spec.lookup name
  | _ => none

/-! ## Example data: the scenarios of section 8 of the spec -/

/-- A specification type with an integer field `mtu` and a string field
`clusterType`. -/
def exampleSpecType : SpecType :=
  [("mtu", FieldKind.integer 0 65535), ("clusterType", FieldKind.string)]

/-- The entry `Global("mtu") = "1500"`, carrying an annotation. -/
def globalMtu : RawEntry :=
  { Key := Key.Global { Name := "mtu" }, Value := "1500", Annotations := [("owner", "ops")] }

/-- The entry `PerNode("nodeA", "mtu") = "9000"`. -/
def nodeAMtu : RawEntry :=
  { Key := Key.PerNode { Hostname := "nodeA", Name := "mtu" }, Value := "9000" }

/-- The entry `PerNode("nodeB", "mtu") = "7000"`. -/
def nodeBMtu : RawEntry :=
  { Key := Key.PerNode { Hostname := "nodeB", Name := "mtu" }, Value := "7000" }

/-- The entry `Global("mtu") = "9000"`, a second entry under the key of
`globalMtu`. -/
def globalMtuJumbo : RawEntry :=
  { Key := Key.Global { Name := "mtu" }, Value := "9000" }

/-- The entry `Global("mtu") = "bad"`, malformed for an integer field. -/
def badMtu : RawEntry :=
  { Key := Key.Global { Name := "mtu" }, Value := "bad" }

/-- The entry `Global("clusterType") = "k8s"`. -/
def globalClusterType : RawEntry :=
  { Key := Key.Global { Name := "clusterType" }, Value := "k8s" }

/-! ## Auxiliary facts about lists -/

theorem lookup_mem {β : Type} (l : List (String × β)) (s : String) (b : β)
    (h : l.lookup s = some b) : (s, b) ∈ l := by
  induction l with
  | nil => simp at h
  | cons x xs ih =>
    obtain ⟨n, v⟩ := x
    rw [List.lookup_cons] at h
    by_cases hn : s = n
    · subst hn
      simp at h
      simp [h]
    · have hb : (s == n) = false := by simpa using hn
      rw [hb] at h
      exact List.mem_cons_of_mem _ (ih h)

theorem lookup_map_snd {β γ : Type} (l : List (String × β)) (g : String → β → γ)
    (s : String) :
    (l.map (fun f => (f.1, g f.1 f.2))).lookup s = (l.lookup s).map (g s) := by
  induction l with
  | nil => rfl
  | cons x xs ih =>
    obtain ⟨n, v⟩ := x
    rw [List.map_cons, List.lookup_cons, List.lookup_cons]
    by_cases hn : s = n
    · subst hn
      simp
    · have hb : (s == n) = false := by simpa using hn
      simp only [hb]
      exact ih

theorem find_filter_of_imp {α : Type} (l : List α) (q r : α → Bool)
    (h : ∀ x ∈ l, q x = true → r x = true) :
    (l.filter r).find? q = l.find? q := by
  induction l with
  | nil => rfl
  | cons x xs ih =>
    have ih2 := ih (fun y hy => h y (List.mem_cons_of_mem _ hy))
    by_cases hq : q x = true
    · have hr := h x (List.mem_cons_self _ _) hq
      simp [List.filter_cons, hr, List.find?_cons, hq]
    · have hq2 : q x = false := by simpa using hq
      by_cases hr : r x = true
      · simp [List.filter_cons, hr, List.find?_cons, hq2, ih2]
      · simp [List.filter_cons, hr, List.find?_cons, hq2, ih2]

theorem filter_swap {α : Type} (l : List α) (q r : α → Bool) :
    (l.filter r).filter q = (l.filter q).filter r := by
  rw [List.filter_filter, List.filter_filter]
  congr 1
  funext a
  exact Bool.and_comm _ _

/-! ## Finding the entry of a key in a batch -/

theorem find_key_eq (entries : List RawEntry) (r : RawEntry → Bool) (k : Key)
    (e : RawEntry) (hid : KeyIdentity entries) (he : e ∈ entries) (hk : e.Key = k)
    (hr : r e = true) :
    (entries.filter r).find? (fun x => decide (x.Key = k)) = some e := by
  cases hf : (entries.filter r).find? (fun x => decide (x.Key = k)) with
  | none =>
    rw [List.find?_eq_none] at hf
    have hmem : e ∈ entries.filter r := List.mem_filter.mpr ⟨he, hr⟩
    have := hf e hmem
    simp [hk] at this
  | some e2 =>
    have hq := List.find?_some hf
    have hmem := List.mem_of_find?_eq_some hf
    have hk2 : e2.Key = k := by simpa using hq
    have he2 : e2 ∈ entries := (List.mem_filter.mp hmem).1
    rw [hid e2 he2 e he (hk2.trans hk.symm)]

theorem KeyIdentity.perm {l1 l2 : List RawEntry} (hp : l1.Perm l2)
    (hid : KeyIdentity l1) : KeyIdentity l2 :=
  fun a ha b hb hk => hid a (hp.mem_iff.mpr ha) b (hp.mem_iff.mpr hb) hk

theorem find_key_perm (l1 l2 : List RawEntry) (r : RawEntry → Bool) (k : Key)
    (hp : l1.Perm l2) (hid : KeyIdentity l1) :
    (l1.filter r).find? (fun x => decide (x.Key = k))
      = (l2.filter r).find? (fun x => decide (x.Key = k)) := by
  cases hf : (l1.filter r).find? (fun x => decide (x.Key = k)) with
  | none =>
    rw [List.find?_eq_none] at hf
    symm
    rw [List.find?_eq_none]
    intro x hx
    exact hf x ((hp.filter r).mem_iff.mpr hx)
  | some e =>
    have hq := List.find?_some hf
    have hmem := List.mem_filter.mp (List.mem_of_find?_eq_some hf)
    have hk : e.Key = k := by simpa using hq
    exact (find_key_eq l2 r k e (hid.perm hp) (hp.mem_iff.mp hmem.1) hk hmem.2).symm

theorem selectEntry_perm (p : ConfigUpdateProcessor) (l1 l2 : List RawEntry)
    (scopeNode name : String) (hp : l1.Perm l2) (hid : KeyIdentity l1) :
    selectEntry p l1 scopeNode name = selectEntry p l2 scopeNode name := by
  unfold selectEntry partitionEntries
  simp only
  rw [find_key_perm l1 l2 _ (p.nodeConfigKeyFn scopeNode name) hp hid,
    find_key_perm l1 l2 _ (p.globalConfigKeyFn name) hp hid]

/-! ## Selection by the cluster-information processor -/

theorem find_key_of_mem (entries : List RawEntry) (k : Key) (e : RawEntry)
    (he : e ∈ entries) (hk : e.Key = k) :
    ∃ e2, e2 ∈ entries ∧ e2.Key = k
      ∧ entries.find? (fun x => decide (x.Key = k)) = some e2 := by
  cases hf : entries.find? (fun x => decide (x.Key = k)) with
  | none =>
    rw [List.find?_eq_none] at hf
    have := hf e he
    simp [hk] at this
  | some e2 =>
    have hq := List.find?_some hf
    exact ⟨e2, List.mem_of_find?_eq_some hf, by simpa using hq, rfl⟩

theorem selectEntry_eq_find (specType : SpecType) (entries : List RawEntry)
    (node name : String) :
    selectEntry (NewClusterInfoUpdateProcessor specType) entries node name =
      match (if node = "" then none
        else entries.find?
          (fun e => decide (e.Key = Key.PerNode { Hostname := node, Name := name }))) with
      | some e => some e
      | none => entries.find? (fun e => decide (e.Key = Key.Global { Name := name })) := by
  unfold selectEntry partitionEntries
  simp only [NewClusterInfoUpdateProcessor, NewConfigUpdateProcessor]
  rw [find_filter_of_imp entries _ (fun e => !e.Key.isGlobal),
    find_filter_of_imp entries _ (fun e => e.Key.isGlobal)]
  · intro x _ hq
    have hx : x.Key = Key.Global { Name := name } := by simpa using hq
    simp [hx, Key.isGlobal]
  · intro x _ hq
    have hx : x.Key = Key.PerNode { Hostname := node, Name := name } := by simpa using hq
    simp [hx, Key.isGlobal]

theorem selectEntry_key (specType : SpecType) (entries : List RawEntry)
    (node name : String) (e : RawEntry)
    (h : selectEntry (NewClusterInfoUpdateProcessor specType) entries node name = some e) :
    e ∈ entries ∧ (e.Key = Key.PerNode { Hostname := node, Name := name }
      ∨ e.Key = Key.Global { Name := name }) := by
  unfold selectEntry partitionEntries at h
  simp only [NewClusterInfoUpdateProcessor, NewConfigUpdateProcessor] at h
  split at h
  · rename_i e2 hf
    cases h
    split at hf
    · cases hf
    · have hq := List.find?_some hf
      have hmem := List.mem_filter.mp (List.mem_of_find?_eq_some hf)
      exact ⟨hmem.1, Or.inl (by simpa using hq)⟩
  · have hq := List.find?_some h
    have hmem := List.mem_filter.mp (List.mem_of_find?_eq_some h)
    exact ⟨hmem.1, Or.inr (by simpa using hq)⟩

theorem selectEntry_filter (p : ConfigUpdateProcessor) (entries : List RawEntry)
    (r : RawEntry → Bool) (node name : String)
    (hnode : ∀ x ∈ entries, x.Key = p.nodeConfigKeyFn node name → r x = true)
    (hglobal : ∀ x ∈ entries, x.Key = p.globalConfigKeyFn name → r x = true) :
    selectEntry p (entries.filter r) node name = selectEntry p entries node name := by
  unfold selectEntry partitionEntries
  simp only
  have h1 : ((entries.filter r).filter (fun e => !e.Key.isGlobal)).find?
        (fun e => decide (e.Key = p.nodeConfigKeyFn node name))
      = (entries.filter (fun e => !e.Key.isGlobal)).find?
        (fun e => decide (e.Key = p.nodeConfigKeyFn node name)) := by
    rw [filter_swap]
    apply find_filter_of_imp
    intro x hx hq
    exact hnode x (List.mem_filter.mp hx).1 (by simpa using hq)
  have h2 : ((entries.filter r).filter (fun e => e.Key.isGlobal)).find?
        (fun e => decide (e.Key = p.globalConfigKeyFn name))
      = (entries.filter (fun e => e.Key.isGlobal)).find?
        (fun e => decide (e.Key = p.globalConfigKeyFn name)) := by
    rw [filter_swap]
    apply find_filter_of_imp
    intro x hx hq
    exact hglobal x (List.mem_filter.mp hx).1 (by simpa using hq)
  rw [h1, h2]

/-! ## The result of `ProcessUpdates` -/

theorem selectedEntries_ne_nil (p : ConfigUpdateProcessor) (entries : List RawEntry)
    (scopeNode s : String) (k : FieldKind) (e : RawEntry)
    (hk : p.specType.lookup s = some k) (hsel : selectEntry p entries scopeNode s = some e) :
    selectedEntries p entries scopeNode ≠ [] := by
  have hmem : e ∈ selectedEntries p entries scopeNode := by
    unfold selectedEntries
    rw [List.mem_filterMap]
    exact ⟨(s, k), lookup_mem _ _ _ hk, hsel⟩
  exact List.ne_nil_of_mem hmem

theorem ProcessUpdates_update (p : ConfigUpdateProcessor) (entries : List RawEntry)
    (scopeNode : String) (h : selectedEntries p entries scopeNode ≠ []) :
    ProcessUpdates p entries scopeNode =
      { events := [ResourceEvent.update (populate p entries scopeNode)
          (applyPolicy p.policy
            ((selectedEntries p entries scopeNode).flatMap (fun e => e.Annotations)))],
        diagnostics := conversionDiagnostics p entries scopeNode } := by
  unfold ProcessUpdates
  split
  · rename_i hnil
    exact absurd hnil h
  · rfl

theorem lookup_populate (p : ConfigUpdateProcessor) (entries : List RawEntry)
    (scopeNode s : String) :
    (populate p entries scopeNode).lookup s =
      (p.specType.lookup s).map (fun k =>
        match selectEntry p entries scopeNode s with
        | some e => bindValue k e.Value
        | none => zeroValue k) := by
  unfold populate
  exact lookup_map_snd p.specType
    (fun n k => match selectEntry p entries scopeNode n with
      | some e => bindValue k e.Value
      | none => zeroValue k) s

theorem field_of_selected (p : ConfigUpdateProcessor) (entries : List RawEntry)
    (scopeNode s : String) (k : FieldKind) (e : RawEntry)
    (hk : p.specType.lookup s = some k) (hsel : selectEntry p entries scopeNode s = some e) :
    (ProcessUpdates p entries scopeNode).field s = some (bindValue k e.Value) := by
  rw [ProcessUpdates_update p entries scopeNode
    (selectedEntries_ne_nil p entries scopeNode s k e hk hsel)]
  simp only [ProcessResult.field]
  rw [lookup_populate, hk, hsel]
  rfl

theorem ProcessUpdates_congr (p : ConfigUpdateProcessor) (l1 l2 : List RawEntry)
    (scopeNode : String)
    (h : ∀ name, selectEntry p l1 scopeNode name = selectEntry p l2 scopeNode name) :
    ProcessUpdates p l1 scopeNode = ProcessUpdates p l2 scopeNode := by
  have hfun : selectEntry p l1 scopeNode = selectEntry p l2 scopeNode := funext h
  unfold ProcessUpdates selectedEntries populate conversionDiagnostics
  simp only [hfun]

/-! ## Resource constructors -/

/-- C1: `NewHostEndpoint` returns a HostEndpoint whose kind is exactly
"HostEndpoint" (`KindHostEndpoint`), whose API version is `GroupVersionCurrent`, and
whose every other field is the zero value: the object metadata is zero and the
specification has empty node, interface name, expected IPs, profiles and ports. -/
theorem NewHostEndpoint_zeroed (GroupVersionCurrent : String) :
    (NewHostEndpoint GroupVersionCurrent).TypeMeta.Kind = "HostEndpoint"
    ∧ (NewHostEndpoint GroupVersionCurrent).TypeMeta.Kind = KindHostEndpoint
    ∧ (NewHostEndpoint GroupVersionCurrent).TypeMeta.APIVersion = GroupVersionCurrent
    ∧ (NewHostEndpoint GroupVersionCurrent).ObjectMeta
        = ⟨"", "", "", "", "", "", 0, none, none, none, [], [], [], [], ""⟩
    ∧ (NewHostEndpoint GroupVersionCurrent).Spec.Node = ""
    ∧ (NewHostEndpoint GroupVersionCurrent).Spec.InterfaceName = ""
    ∧ (NewHostEndpoint GroupVersionCurrent).Spec.ExpectedIPs = []
    ∧ (NewHostEndpoint GroupVersionCurrent).Spec.Profiles = []
    ∧ (NewHostEndpoint GroupVersionCurrent).Spec.Ports = [] :=
  ⟨rfl, rfl, rfl, rfl, rfl, rfl, rfl, rfl, rfl⟩

/-- C2: `NewHostEndpointList` returns a HostEndpointList whose kind is exactly
"HostEndpointList" (`KindHostEndpointList`), whose API version is
`GroupVersionCurrent`, whose list metadata is the zero value and whose items are
empty. -/
theorem NewHostEndpointList_zeroed (GroupVersionCurrent : String) :
    (NewHostEndpointList GroupVersionCurrent).TypeMeta.Kind = "HostEndpointList"
    ∧ (NewHostEndpointList GroupVersionCurrent).TypeMeta.Kind = KindHostEndpointList
    ∧ (NewHostEndpointList GroupVersionCurrent).TypeMeta.APIVersion = GroupVersionCurrent
    ∧ (NewHostEndpointList GroupVersionCurrent).ListMeta = ⟨"", "", ""⟩
    ∧ (NewHostEndpointList GroupVersionCurrent).Items = [] :=
  ⟨rfl, rfl, rfl, rfl, rfl⟩

/-- C10: the objects returned by `NewHostEndpoint` and `NewHostEndpointList` carry
the same API version but different kinds: `KindHostEndpoint` differs from
`KindHostEndpointList`, which is `KindHostEndpoint` followed by "List". -/
theorem HostEndpoint_kind_distinct_from_list (GroupVersionCurrent : String) :
    (NewHostEndpoint GroupVersionCurrent).TypeMeta.APIVersion
        = (NewHostEndpointList GroupVersionCurrent).TypeMeta.APIVersion
    ∧ (NewHostEndpoint GroupVersionCurrent).TypeMeta.Kind
        ≠ (NewHostEndpointList GroupVersionCurrent).TypeMeta.Kind
    ∧ KindHostEndpoint ≠ KindHostEndpointList
    ∧ KindHostEndpointList = KindHostEndpoint ++ "List"
    ∧ (NewHostEndpoint GroupVersionCurrent).TypeMeta
        ≠ (NewHostEndpointList GroupVersionCurrent).TypeMeta := by
  have hne : KindHostEndpoint ≠ KindHostEndpointList := by decide
  refine ⟨rfl, hne, hne, by decide, ?_⟩
  intro h
  exact hne (congrArg TypeMeta.Kind h)

/-! ## The key constructors of the cluster-information processor -/

/-- C3: for every node name `n` and setting name `s`, the per-node key constructor
that `NewClusterInfoUpdateProcessor` supplies returns the key
`HostConfigKey{Hostname: n, Name: s}`, and the global key constructor it supplies
returns `GlobalConfigKey{Name: s}`; both are total functions into keys. -/
theorem clusterInfo_key_constructors (ClusterInformationSpec : SpecType) (n s : String) :
    (NewClusterInfoUpdateProcessor ClusterInformationSpec).nodeConfigKeyFn n s
        = Key.PerNode { Hostname := n, Name := s }
    ∧ (NewClusterInfoUpdateProcessor ClusterInformationSpec).globalConfigKeyFn s
        = Key.Global { Name := s } :=
  ⟨rfl, rfl⟩

/-- C9: the two key constructors supplied by `NewClusterInfoUpdateProcessor` are
injective and have disjoint ranges: equal global keys have equal setting names,
equal per-node keys have equal node names and equal setting names, and a per-node
key is never a global key, also when the node name is empty. -/
theorem clusterInfo_keys_injective_disjoint (ClusterInformationSpec : SpecType)
    (n1 n2 a b : String) :
    ((NewClusterInfoUpdateProcessor ClusterInformationSpec).globalConfigKeyFn a
        = (NewClusterInfoUpdateProcessor ClusterInformationSpec).globalConfigKeyFn b
      ↔ a = b)
    ∧ ((NewClusterInfoUpdateProcessor ClusterInformationSpec).nodeConfigKeyFn n1 a
        = (NewClusterInfoUpdateProcessor ClusterInformationSpec).nodeConfigKeyFn n2 b
      ↔ n1 = n2 ∧ a = b)
    ∧ (NewClusterInfoUpdateProcessor ClusterInformationSpec).nodeConfigKeyFn n1 a
        ≠ (NewClusterInfoUpdateProcessor ClusterInformationSpec).globalConfigKeyFn b
    ∧ (NewClusterInfoUpdateProcessor ClusterInformationSpec).nodeConfigKeyFn "" a
        ≠ (NewClusterInfoUpdateProcessor ClusterInformationSpec).globalConfigKeyFn a := by
  simp [NewClusterInfoUpdateProcessor, NewConfigUpdateProcessor]

/-! ## The cluster-information processor on a batch -/

/-- C4: the processor returned by `NewClusterInfoUpdateProcessor` is built with the
Disallow annotation policy, so whatever annotations the raw entries of a batch
carry, every update event it produces has empty annotations. -/
theorem clusterInfo_annotations_empty (ClusterInformationSpec : SpecType)
    (entries : List RawEntry) (scopeNode : String) (spec : Specification)
    (annotations : List (String × String))
    (h : ResourceEvent.update spec annotations
      ∈ (ProcessUpdates (NewClusterInfoUpdateProcessor ClusterInformationSpec)
          entries scopeNode).events) :
    (NewClusterInfoUpdateProcessor ClusterInformationSpec).policy = DisallowAnnotations
    ∧ annotations = [] := by
  refine ⟨rfl, ?_⟩
  unfold ProcessUpdates at h
  split at h
  · simp at h
  · simp only [List.mem_singleton, ResourceEvent.update.injEq] at h
    rw [h.2]
    rfl

/-- Witness of C4: the batch of `Global("mtu")`, which carries an annotation, and
`PerNode("nodeA", "mtu")` yields an update event for node A, without annotations. -/
theorem clusterInfo_annotations_empty_witness :
    globalMtu.Annotations ≠ []
    ∧ ResourceEvent.update [("mtu", FieldValue.int 9000), ("clusterType", FieldValue.str "")] []
      ∈ (ProcessUpdates (NewClusterInfoUpdateProcessor exampleSpecType)
          [globalMtu, nodeAMtu] "nodeA").events
    ∧ ((NewClusterInfoUpdateProcessor exampleSpecType).policy = DisallowAnnotations
      ∧ ([] : List (String × String)) = []) :=
  ⟨by decide, by decide,
    clusterInfo_annotations_empty exampleSpecType [globalMtu, nodeAMtu] "nodeA"
      [("mtu", FieldValue.int 9000), ("clusterType", FieldValue.str "")] [] (by decide)⟩

/-- C5, as amended: for every setting of the specification type that is present in
a batch both as a Global entry and as a PerNode entry for a named node `N`,
`ProcessUpdates` with scope node `N` populates the field with the PerNode value, and
`ProcessUpdates` with a scope node for which the batch holds no PerNode entry of
that setting (or with the empty scope node) populates it with the Global value.  The
PerNode value, and the Global value, is that of the entry the batch holds under
that key, the first one should several entries share the key. -/
theorem ProcessUpdates_precedence (ClusterInformationSpec : SpecType)
    (entries : List RawEntry) (N s : String) (k : FieldKind) (eg ep : RawEntry)
    (hk : ClusterInformationSpec.lookup s = some k)
    (hg : eg ∈ entries) (hgk : eg.Key = Key.Global { Name := s })
    (hp : ep ∈ entries) (hpk : ep.Key = Key.PerNode { Hostname := N, Name := s })
    (hN : N ≠ "") :
    (∃ e ∈ entries, e.Key = Key.PerNode { Hostname := N, Name := s }
        ∧ entries.find?
            (fun x => decide (x.Key = Key.PerNode { Hostname := N, Name := s })) = some e
        ∧ (ProcessUpdates (NewClusterInfoUpdateProcessor ClusterInformationSpec)
            entries N).field s = some (bindValue k e.Value))
    ∧ ∀ M : String,
        (M = "" ∨ ∀ x ∈ entries, x.Key ≠ Key.PerNode { Hostname := M, Name := s }) →
        ∃ e ∈ entries, e.Key = Key.Global { Name := s }
          ∧ entries.find? (fun x => decide (x.Key = Key.Global { Name := s })) = some e
          ∧ (ProcessUpdates (NewClusterInfoUpdateProcessor ClusterInformationSpec)
              entries M).field s = some (bindValue k e.Value) := by
  constructor
  · obtain ⟨e, he, hek, hfind⟩ := find_key_of_mem entries _ ep hp hpk
    refine ⟨e, he, hek, hfind, ?_⟩
    apply field_of_selected _ entries N s k e hk
    rw [selectEntry_eq_find, if_neg hN, hfind]
  · intro M hM
    obtain ⟨e, he, hek, hfind⟩ := find_key_of_mem entries _ eg hg hgk
    refine ⟨e, he, hek, hfind, ?_⟩
    apply field_of_selected _ entries M s k e hk
    rw [selectEntry_eq_find]
    by_cases h0 : M = ""
    · rw [if_pos h0]
      exact hfind
    · have hnone : ∀ x ∈ entries, x.Key ≠ Key.PerNode { Hostname := M, Name := s } :=
        hM.resolve_left h0
      have hf : entries.find?
          (fun x => decide (x.Key = Key.PerNode { Hostname := M, Name := s })) = none := by
        rw [List.find?_eq_none]
        intro x hx
        simpa using hnone x hx
      rw [if_neg h0, hf]
      exact hfind

/-- Witness of C5: `Global("mtu") = "1500"` and `PerNode("nodeA", "mtu") = "9000"`
give mtu 9000 for node A and mtu 1500 for node B. -/
theorem ProcessUpdates_precedence_witness :
    (ProcessUpdates (NewClusterInfoUpdateProcessor exampleSpecType)
        [globalMtu, nodeAMtu] "nodeA").field "mtu" = some (FieldValue.int 9000)
    ∧ (ProcessUpdates (NewClusterInfoUpdateProcessor exampleSpecType)
        [globalMtu, nodeAMtu] "nodeB").field "mtu" = some (FieldValue.int 1500) := by
  have h := ProcessUpdates_precedence exampleSpecType [globalMtu, nodeAMtu] "nodeA" "mtu"
    (FieldKind.integer 0 65535) globalMtu nodeAMtu
    (by decide) (by decide) (by decide) (by decide) (by decide) (by decide)
  constructor
  · obtain ⟨e, _, _, hfind, hfield⟩ := h.1
    have hfirst : [globalMtu, nodeAMtu].find?
        (fun x => decide (x.Key = Key.PerNode { Hostname := "nodeA", Name := "mtu" }))
        = some nodeAMtu := by decide
    rw [hfirst] at hfind
    cases hfind
    rw [hfield]
    decide
  · obtain ⟨e, _, _, hfind, hfield⟩ := h.2 "nodeB" (Or.inr (by decide))
    have hfirst : [globalMtu, nodeAMtu].find?
        (fun x => decide (x.Key = Key.Global { Name := "mtu" })) = some globalMtu := by
      decide
    rw [hfirst] at hfind
    cases hfind
    rw [hfield]
    decide

/-- Counterexample to C5 as stated.  The batch holds `Global("mtu") = "1500"`,
`PerNode("nodeA", "mtu") = "9000"` and `PerNode("nodeB", "mtu") = "7000"`.  The
setting is present as a Global entry and as a PerNode entry for node A, the scope
node B differs from node A, and yet the field is 7000, not the Global value 1500.
Nor can any other processor do what the claim states on this batch: its first half
at `N = nodeB` asks for 7000 at scope node B, its second half at `N = nodeA` asks
for 1500 there. -/
theorem ProcessUpdates_precedence_counterexample :
    (globalMtu ∈ [globalMtu, nodeAMtu, nodeBMtu]
      ∧ globalMtu.Key = Key.Global { Name := "mtu" }
      ∧ nodeAMtu ∈ [globalMtu, nodeAMtu, nodeBMtu]
      ∧ nodeAMtu.Key = Key.PerNode { Hostname := "nodeA", Name := "mtu" }
      ∧ "nodeB" ≠ "nodeA"
      ∧ (ProcessUpdates (NewClusterInfoUpdateProcessor exampleSpecType)
          [globalMtu, nodeAMtu, nodeBMtu] "nodeB").field "mtu" = some (FieldValue.int 7000)
      ∧ (ProcessUpdates (NewClusterInfoUpdateProcessor exampleSpecType)
          [globalMtu, nodeAMtu, nodeBMtu] "nodeB").field "mtu"
            ≠ some (bindValue (FieldKind.integer 0 65535) globalMtu.Value))
    ∧ ¬ ∃ process : List RawEntry → String → ProcessResult,
        ∀ (N M : String) (eg ep : RawEntry),
          eg ∈ [globalMtu, nodeAMtu, nodeBMtu] → eg.Key = Key.Global { Name := "mtu" } →
          ep ∈ [globalMtu, nodeAMtu, nodeBMtu] →
          ep.Key = Key.PerNode { Hostname := N, Name := "mtu" } →
          (process [globalMtu, nodeAMtu, nodeBMtu] N).field "mtu"
              = some (bindValue (FieldKind.integer 0 65535) ep.Value)
          ∧ (M ≠ N →
            (process [globalMtu, nodeAMtu, nodeBMtu] M).field "mtu"
              = some (bindValue (FieldKind.integer 0 65535) eg.Value)) := by
  refine ⟨by decide, ?_⟩
  rintro ⟨process, h⟩
  have hB := (h "nodeB" "nodeB" globalMtu nodeBMtu (by decide) (by decide) (by decide)
    (by decide)).1
  have hA := (h "nodeA" "nodeB" globalMtu nodeAMtu (by decide) (by decide) (by decide)
    (by decide)).2 (by decide)
  rw [hB] at hA
  exact absurd hA (by decide)

/-- C6, as amended: for every batch whose entries are identified by their keys (two
entries with the same key are the same entry) and every fixed scope node,
`ProcessUpdates` returns the same output for every permutation of the batch: the
result does not depend on the arrival order of the entries. -/
theorem ProcessUpdates_perm (p : ConfigUpdateProcessor) (entries permuted : List RawEntry)
    (scopeNode : String) (hid : KeyIdentity entries) (hperm : entries.Perm permuted) :
    ProcessUpdates p entries scopeNode = ProcessUpdates p permuted scopeNode :=
  ProcessUpdates_congr p entries permuted scopeNode
    (fun name => selectEntry_perm p entries permuted scopeNode name hperm hid)

theorem keyIdentity_three : KeyIdentity [globalMtu, nodeAMtu, globalClusterType] := by
  unfold KeyIdentity
  decide

/-- Witness of C6: a batch of three entries and its rotation give the same result
for node A, an update with mtu 9000 and cluster type "k8s". -/
theorem ProcessUpdates_perm_witness :
    ProcessUpdates (NewClusterInfoUpdateProcessor exampleSpecType)
        [globalMtu, nodeAMtu, globalClusterType] "nodeA"
      = ProcessUpdates (NewClusterInfoUpdateProcessor exampleSpecType)
        [nodeAMtu, globalClusterType, globalMtu] "nodeA"
    ∧ (ProcessUpdates (NewClusterInfoUpdateProcessor exampleSpecType)
        [nodeAMtu, globalClusterType, globalMtu] "nodeA").events
      = [ResourceEvent.update
          [("mtu", FieldValue.int 9000), ("clusterType", FieldValue.str "k8s")] []] :=
  ⟨ProcessUpdates_perm (NewClusterInfoUpdateProcessor exampleSpecType)
      [globalMtu, nodeAMtu, globalClusterType] [nodeAMtu, globalClusterType, globalMtu]
      "nodeA" keyIdentity_three
      ((List.Perm.swap nodeAMtu globalMtu [globalClusterType]).trans
        (List.Perm.cons nodeAMtu (List.Perm.swap globalClusterType globalMtu []))),
    by decide⟩

/-- Counterexample to C6 as stated.  The batch of `Global("mtu") = "1500"` and
`Global("mtu") = "9000"`, two entries under one key, and its swap are permutations
of each other, and `ProcessUpdates` gives mtu 1500 for the one and mtu 9000 for the
other. -/
theorem ProcessUpdates_perm_counterexample :
    [globalMtu, globalMtuJumbo].Perm [globalMtuJumbo, globalMtu]
    ∧ (ProcessUpdates (NewClusterInfoUpdateProcessor exampleSpecType)
        [globalMtu, globalMtuJumbo] "nodeA").field "mtu" = some (FieldValue.int 1500)
    ∧ (ProcessUpdates (NewClusterInfoUpdateProcessor exampleSpecType)
        [globalMtuJumbo, globalMtu] "nodeA").field "mtu" = some (FieldValue.int 9000)
    ∧ ProcessUpdates (NewClusterInfoUpdateProcessor exampleSpecType)
        [globalMtu, globalMtuJumbo] "nodeA"
      ≠ ProcessUpdates (NewClusterInfoUpdateProcessor exampleSpecType)
        [globalMtuJumbo, globalMtu] "nodeA" :=
  ⟨List.Perm.swap globalMtuJumbo globalMtu [], by decide, by decide, by decide⟩

theorem diagnostic_of_selected (p : ConfigUpdateProcessor) (entries : List RawEntry)
    (scopeNode s : String) (k : FieldKind) (e : RawEntry)
    (hk : p.specType.lookup s = some k) (hsel : selectEntry p entries scopeNode s = some e)
    (hbad : convertValue k e.Value = none) :
    { Name := s, Value := e.Value : ConversionDiagnostic }
      ∈ (ProcessUpdates p entries scopeNode).diagnostics := by
  rw [ProcessUpdates_update p entries scopeNode
    (selectedEntries_ne_nil p entries scopeNode s k e hk hsel)]
  simp only [conversionDiagnostics]
  rw [List.mem_filterMap]
  refine ⟨(s, k), lookup_mem _ _ _ hk, ?_⟩
  simp only [hsel, hbad]

/-- C8: when the value selected for a setting fails conversion for its field type,
`ProcessUpdates` still produces an update event: the offending field is left at its
zero value, a conversion diagnostic for it is reported, and every other setting
present in the batch populates its field from its own value, exactly as it does
when the malformed entry is removed from the batch. -/
theorem ProcessUpdates_conversion_error (ClusterInformationSpec : SpecType)
    (entries : List RawEntry) (scopeNode s : String) (k : FieldKind) (e : RawEntry)
    (hk : ClusterInformationSpec.lookup s = some k)
    (hsel : selectEntry (NewClusterInfoUpdateProcessor ClusterInformationSpec)
      entries scopeNode s = some e)
    (hbad : convertValue k e.Value = none) :
    (∃ spec annotations,
        (ProcessUpdates (NewClusterInfoUpdateProcessor ClusterInformationSpec)
          entries scopeNode).events = [ResourceEvent.update spec annotations])
    ∧ (ProcessUpdates (NewClusterInfoUpdateProcessor ClusterInformationSpec)
        entries scopeNode).field s = some (zeroValue k)
    ∧ { Name := s, Value := e.Value : ConversionDiagnostic }
        ∈ (ProcessUpdates (NewClusterInfoUpdateProcessor ClusterInformationSpec)
            entries scopeNode).diagnostics
    ∧ ∀ (t : String) (k2 : FieldKind) (e2 : RawEntry), t ≠ s →
        ClusterInformationSpec.lookup t = some k2 →
        selectEntry (NewClusterInfoUpdateProcessor ClusterInformationSpec)
          entries scopeNode t = some e2 →
        (ProcessUpdates (NewClusterInfoUpdateProcessor ClusterInformationSpec)
            entries scopeNode).field t = some (bindValue k2 e2.Value)
        ∧ (ProcessUpdates (NewClusterInfoUpdateProcessor ClusterInformationSpec)
            (entries.filter (fun x => decide (x ≠ e))) scopeNode).field t
          = (ProcessUpdates (NewClusterInfoUpdateProcessor ClusterInformationSpec)
            entries scopeNode).field t := by
  have hne := selectedEntries_ne_nil (NewClusterInfoUpdateProcessor ClusterInformationSpec)
    entries scopeNode s k e hk hsel
  refine ⟨⟨_, _, congrArg ProcessResult.events (ProcessUpdates_update _ _ _ hne)⟩, ?_,
    diagnostic_of_selected _ entries scopeNode s k e hk hsel hbad, ?_⟩
  · have h := field_of_selected (NewClusterInfoUpdateProcessor ClusterInformationSpec)
      entries scopeNode s k e hk hsel
    rw [h, bindValue, hbad]
  · intro t k2 e2 hts hk2 hsel2
    have hkey := (selectEntry_key ClusterInformationSpec entries scopeNode s e hsel).2
    have h1 := field_of_selected (NewClusterInfoUpdateProcessor ClusterInformationSpec)
      entries scopeNode t k2 e2 hk2 hsel2
    refine ⟨h1, ?_⟩
    have hsame : selectEntry (NewClusterInfoUpdateProcessor ClusterInformationSpec)
        (entries.filter (fun x => decide (x ≠ e))) scopeNode t = some e2 := by
      rw [selectEntry_filter _ entries _ scopeNode t ?_ ?_]
      · exact hsel2
      · intro x _ hx
        simp only [NewClusterInfoUpdateProcessor, NewConfigUpdateProcessor] at hx
        simp only [decide_eq_true_eq]
        intro hxe
        rw [hxe] at hx
        rcases hkey with hkey | hkey
        · rw [hkey] at hx
          simp only [Key.PerNode.injEq, HostConfigKey.mk.injEq] at hx
          exact hts hx.2.symm
        · rw [hkey] at hx
          cases hx
      · intro x _ hx
        simp only [NewClusterInfoUpdateProcessor, NewConfigUpdateProcessor] at hx
        simp only [decide_eq_true_eq]
        intro hxe
        rw [hxe] at hx
        rcases hkey with hkey | hkey
        · rw [hkey] at hx
          cases hx
        · rw [hkey] at hx
          simp only [Key.Global.injEq, GlobalConfigKey.mk.injEq] at hx
          exact hts hx.symm
    rw [h1]
    exact field_of_selected (NewClusterInfoUpdateProcessor ClusterInformationSpec)
      _ scopeNode t k2 e2 hk2 hsame

/-- Witness of C8: `Global("mtu") = "bad"` with an integer `mtu`, next to
`Global("clusterType") = "k8s"`, yields mtu 0, cluster type "k8s" and exactly one
diagnostic. -/
theorem ProcessUpdates_conversion_error_witness :
    ProcessUpdates (NewClusterInfoUpdateProcessor exampleSpecType)
        [badMtu, globalClusterType] "nodeA"
      = { events := [ResourceEvent.update
            [("mtu", FieldValue.int 0), ("clusterType", FieldValue.str "k8s")] []],
          diagnostics := [{ Name := "mtu", Value := "bad" }] }
    ∧ ProcessUpdates (NewClusterInfoUpdateProcessor exampleSpecType) [badMtu] "nodeA"
      = { events := [ResourceEvent.update
            [("mtu", FieldValue.int 0), ("clusterType", FieldValue.str "")] []],
          diagnostics := [{ Name := "mtu", Value := "bad" }] }
    ∧ (ProcessUpdates (NewClusterInfoUpdateProcessor exampleSpecType)
        [badMtu, globalClusterType] "nodeA").field "mtu" = some (FieldValue.int 0)
    ∧ (ProcessUpdates (NewClusterInfoUpdateProcessor exampleSpecType)
        ([badMtu, globalClusterType].filter (fun x => decide (x ≠ badMtu))) "nodeA").field
          "clusterType"
      = (ProcessUpdates (NewClusterInfoUpdateProcessor exampleSpecType)
        [badMtu, globalClusterType] "nodeA").field "clusterType" :=
  have h := ProcessUpdates_conversion_error exampleSpecType [badMtu, globalClusterType]
    "nodeA" "mtu" (FieldKind.integer 0 65535) badMtu (by decide) (by decide) (by decide)
  ⟨by decide, by decide, h.2.1,
    (h.2.2.2 "clusterType" FieldKind.string globalClusterType (by decide) (by decide)
      (by decide)).2⟩

end Calico
